import Mathlib

/-!
Verification of `src/widget.c` from the luakit repository: the glue binding
Lua-visible widget objects to concrete GUI widget backends.  The C code is
embedded shallowly: widgets become a Lean record, the Lua error mechanism
(`luaL_error` performs a non-local exit) becomes an explicit error outcome,
and the side effects of a call (constructor invocation, type-field store,
signal emission, destructor invocation) are recorded in an event trace so
that ordering properties can be stated.  Code from headers that is not part
of the repository snapshot (the tokenizer, the class machinery, the concrete
backend constructors) is either modelled from the specification or kept
abstract as a parameter that theorems quantify over.
-/

namespace Luakit

/-- Modelled from the spec: the token enumeration produced by the
string-to-enum tokenizer (`common/tokenize`, not under `src/`).  Only the
tokens used by `src/widget.c` are named; every other token is collapsed
into `L_TK_UNKNOWN`, which `widget.c` treats like any non-widget-type
token (the `default` branch of its switch). -/
inductive luakit_token_t where
  | L_TK_WEBVIEW
  | L_TK_NOTEBOOK
  | L_TK_TEXTAREA
  | L_TK_HBOX
  | L_TK_VBOX
  | L_TK_PARENT
  | L_TK_TYPE
  | L_TK_UNKNOWN
deriving DecidableEq, Repr

/-- Modelled from the spec: the tokenizer `l_tokenize`
(`common/tokenize`, generated code, not under `src/`): "string-to-enum
dispatch for property names".  Each name known to `widget.c` maps to its
token; all other strings map to `L_TK_UNKNOWN`. -/
def l_tokenize (s : String) : luakit_token_t :=
  if s = "webview" then .L_TK_WEBVIEW
  else if s = "notebook" then .L_TK_NOTEBOOK
  else if s = "textarea" then .L_TK_TEXTAREA
  else if s = "hbox" then .L_TK_HBOX
  else if s = "vbox" then .L_TK_VBOX
  else if s = "parent" then .L_TK_PARENT
  else if s = "type" then .L_TK_TYPE
  else .L_TK_UNKNOWN

/-- Modelled from the spec: the widget record (`widget.h`, not under
`src/`): "a widget record holds an optional parent reference, an optional
owning window reference, an optional type-name string (set at most once),
and optional function pointers for index/newindex dispatch and
destruction", plus the `ref` handle recorded by `luaH_widget_new`.
Pointers are addresses (`Nat`); `none` is C's `NULL`.  Function pointers
are abstract addresses; their behaviour, when needed, is supplied to the
embedded functions as an interpretation parameter. -/
structure widget_t where
  parent : Option Nat
  window : Option Nat
  type : Option String
  index : Option Nat
  newindex : Option Nat
  destructor : Option Nat
  ref : Option Nat
deriving DecidableEq, Repr

/-- Modelled from the spec: a window record (`window.h`, not under
`src/`); `luaH_widget_get_parent` only reads its `ref` handle. -/
structure window_t where
  ref : Option Nat
deriving DecidableEq, Repr

/-- The five concrete backend constructors `widget.c` can dispatch to.
Their bodies live in other files; `widget.c` only selects one and calls
it, so here they are identifiers, and what a constructor does to the
widget is an abstract parameter `ctors : ConstructorId → widget_t →
widget_t` of the embedded `luaH_widget_set_type`. -/
inductive ConstructorId where
  | widget_webview
  | widget_notebook
  | widget_textarea
  | widget_hbox
  | widget_vbox
deriving DecidableEq, Repr

/-- The `switch (tok)` of `luaH_widget_set_type` (src/widget.c:122-146):
which constructor the token selects; `none` is the `default` branch
leaving `wc == NULL`. -/
def constructor_for_token : luakit_token_t → Option ConstructorId
  | .L_TK_WEBVIEW => some .widget_webview
  | .L_TK_NOTEBOOK => some .widget_notebook
  | .L_TK_TEXTAREA => some .widget_textarea
  | .L_TK_HBOX => some .widget_hbox
  | .L_TK_VBOX => some .widget_vbox
  | _ => none

/-- The errors `luaH_widget_set_type` can raise via `luaL_error`. -/
inductive LuaError where
  | alreadyType (t : String)
  | unknownType (t : String)
deriving DecidableEq, Repr

/-- Observable side effects of `luaH_widget_set_type`, in order. -/
inductive SetTypeEvent where
  | callConstructor (c : ConstructorId)
  | storeType (s : String)
  | emitSignal (name : String)
deriving DecidableEq, Repr

/-- Embedding of `luaH_widget_set_type` (src/widget.c:111-157).  Input:
the widget and the type-name string at the top of the Lua stack (the C
code obtains it with `luaL_checklstring`; the claims presuppose a
string).  Output: the final widget state, the trace of side effects, and
the error raised, if any (`luaL_error` exits non-locally, so nothing
after it runs). -/
def luaH_widget_set_type (ctors : ConstructorId → widget_t → widget_t)
    (w : widget_t) (type : String) :
    widget_t × List SetTypeEvent × Option LuaError :=
  match w.type with
  | some t => (w, [], some (.alreadyType t))
  | none =>
    let tok := l_tokenize type
    match constructor_for_token tok with
    | none => (w, [], some (.unknownType type))
    | some cid =>
      let w1 := ctors cid w
      let w2 := { w1 with type := some type }
      (w2, [.callConstructor cid, .storeType type, .emitSignal "init"], none)

/-- Embedding of `luaH_widget_get_type` (src/widget.c:159-167): pushes
the stored type string (returning 1 value), or returns 0 values when the
type was never set.  `some s` models "one value, the string `s`, pushed";
`none` models "no value". -/
def luaH_widget_get_type (w : widget_t) : Option String :=
  match w.type with
  | none => none
  | some t => some t

/-- Embedding of `luaH_widget_get_parent` (src/widget.c:169-183).  The
heaps interpret the parent/window pointer addresses; the result is the
handle pushed (`luaH_object_push` of `->ref`), or `none` when the
function returns 0 values. -/
def luaH_widget_get_parent (wheap : Nat → widget_t) (winheap : Nat → window_t)
    (w : widget_t) : Option (Option Nat) :=
  match w.parent with
  | some p => some ((wheap p).ref)
  | none =>
    match w.window with
    | some win => some ((winheap win).ref)
    | none => none

/-- Observable handler invocations of the `__index`/`__newindex`
metamethods, in order. -/
inductive DispatchEvent where
  | classIndexCalled
  | backendIndexCalled (tok : luakit_token_t)
  | classNewindexCalled
  | backendNewindexCalled (tok : luakit_token_t)
deriving DecidableEq, Repr

/-- Embedding of `luaH_widget_index` (src/widget.c:76-90).
`classIndexHandles` abstracts the result of `luaH_class_index`
(`common/luaclass`, not under `src/`): whether the standard class index
pushed a result.  `interp` interprets the widget's backend index function
pointer: the number of values `(*widget->index)(L, token)` pushes for a
given token.  Result: number of values pushed, and the trace of handler
invocations. -/
def luaH_widget_index (interp : Nat → luakit_token_t → Nat)
    (classIndexHandles : Bool) (w : widget_t) (prop : String) :
    Nat × List DispatchEvent :=
  let token := l_tokenize prop
  if classIndexHandles then (1, [.classIndexCalled])
  else
    match w.index with
    | some p => (interp p token, [.classIndexCalled, .backendIndexCalled token])
    | none => (0, [.classIndexCalled])

/-- Embedding of `luaH_widget_newindex` (src/widget.c:96-109).
`classNewindexHandles` abstracts whether `luaH_class_newindex` handled
the property; the C code discards that result, which is why the
parameter does not influence the output.  `interp` interprets the
backend newindex function pointer as in `luaH_widget_index`. -/
def luaH_widget_newindex (interp : Nat → luakit_token_t → Nat)
    (classNewindexHandles : Bool) (w : widget_t) (prop : String) :
    Nat × List DispatchEvent :=
  let token := l_tokenize prop
  let _ := classNewindexHandles
  match w.newindex with
  | some p => (interp p token, [.classNewindexCalled, .backendNewindexCalled token])
  | none => (0, [.classNewindexCalled])

/-- Observable steps of `luaH_widget_gc`, in order. -/
inductive GcEvent where
  | destructorCalled
  | objectGcCalled
deriving DecidableEq, Repr

/-- Embedding of `luaH_widget_gc` (src/widget.c:36-43): the trace of
collection steps — the widget's destructor when its pointer is non-null,
then the generic `luaH_object_gc`. -/
def luaH_widget_gc (w : widget_t) : List GcEvent :=
  (if w.destructor.isSome then [GcEvent.destructorCalled] else []) ++
    [GcEvent.objectGcCalled]

/-- Embedding of `luaH_widget_new` (src/widget.c:52-66).  `alloc` is the
widget produced by `luaH_class_new`'s allocator; `refVal` is the handle
`luaH_object_ref_class` returns for the pushed class instance.  The
function clears `parent` and `window` and records the reference. -/
def luaH_widget_new (alloc : widget_t) (refVal : Nat) : widget_t :=
  { alloc with parent := none, window := none, ref := some refVal }

/-- The tokens of the five known widget types. -/
def widget_type_tokens : List luakit_token_t :=
  [.L_TK_WEBVIEW, .L_TK_NOTEBOOK, .L_TK_TEXTAREA, .L_TK_HBOX, .L_TK_VBOX]

/-- A concrete freshly-created widget (all pointers null, `ref` set), as
`luaH_widget_new` produces, for use in concrete evaluations. -/
def freshWidget : widget_t :=
  widget_t.mk none none none none none none (some 1)

/-- A concrete constructor interpretation for concrete evaluations: every
backend constructor installs the function pointers 7, 8 and 9. -/
def installPtrs : ConstructorId → widget_t → widget_t :=
  fun _ x => { x with index := some 7, newindex := some 8, destructor := some 9 }

/-- The switch of `luaH_widget_set_type` selects no constructor exactly
for tokens outside the five widget-type tokens. -/
lemma constructor_for_token_eq_none (tok : luakit_token_t) :
    constructor_for_token tok = none ↔ tok ∉ widget_type_tokens := by
  cases tok <;> simp [constructor_for_token, widget_type_tokens]

/-- Claim C1: once a widget's type field is non-null, setting the type
property fails with an error before any other state change: the widget is
returned unchanged, no constructor runs and no signal is emitted, so the
type field is never changed once set. -/
theorem set_type_at_most_once (ctors : ConstructorId → widget_t → widget_t)
    (w : widget_t) (t0 s : String) (h : w.type = some t0) :
    luaH_widget_set_type ctors w s = (w, [], some (.alreadyType t0)) := by
  simp [luaH_widget_set_type, h]

/-- Witness for C1 at a concrete widget already of type "webview". -/
theorem set_type_at_most_once_witness :
    luaH_widget_set_type installPtrs { freshWidget with type := some "webview" }
        "hbox"
      = ({ freshWidget with type := some "webview" }, [],
         some (.alreadyType "webview")) :=
  set_type_at_most_once installPtrs _ "webview" "hbox" rfl

/-- Claim C2: setting the type property raises an error if and only if the
widget already has a type or the given name tokenizes to none of the five
known widget types; on the unknown-type error no constructor is called
(empty trace) and the widget, its type field included, is unchanged. -/
theorem set_type_error_conditions (ctors : ConstructorId → widget_t → widget_t)
    (w : widget_t) (s : String) :
    ((luaH_widget_set_type ctors w s).2.2.isSome ↔
      (w.type.isSome ∨ l_tokenize s ∉ widget_type_tokens)) ∧
    (w.type = none → l_tokenize s ∉ widget_type_tokens →
      luaH_widget_set_type ctors w s = (w, [], some (.unknownType s))) := by
  constructor
  · rcases hw : w.type with _ | t
    · rcases hc : constructor_for_token (l_tokenize s) with _ | cid
      · simp [luaH_widget_set_type, hw, hc,
          (constructor_for_token_eq_none _).mp hc]
      · have : ¬ constructor_for_token (l_tokenize s) = none := by simp [hc]
        rw [constructor_for_token_eq_none] at this
        simp only [not_not] at this
        simp [luaH_widget_set_type, hw, hc, this]
    · simp [luaH_widget_set_type, hw]
  · intro hw hs
    have hc : constructor_for_token (l_tokenize s) = none :=
      (constructor_for_token_eq_none _).mpr hs
    simp [luaH_widget_set_type, hw, hc]

/-- Witness for C2 at a fresh widget and the unknown type name "bogus". -/
theorem set_type_error_conditions_witness :
    luaH_widget_set_type installPtrs freshWidget "bogus"
      = (freshWidget, [], some (.unknownType "bogus")) :=
  (set_type_error_conditions installPtrs freshWidget "bogus").2 rfl (by decide)

/-- Claim C3: type assignment dispatches over exactly the five concrete
backends: each of the five widget-type tokens selects the matching
constructor, no other token selects one, and when a constructor is
selected it is called on the widget (the result is that constructor
applied to the widget, then the type store, with the call recorded in the
trace). -/
theorem set_type_dispatch_table (ctors : ConstructorId → widget_t → widget_t)
    (w : widget_t) (s : String) (cid : ConstructorId) (h : w.type = none)
    (hc : constructor_for_token (l_tokenize s) = some cid) :
    luaH_widget_set_type ctors w s =
      ({ ctors cid w with type := some s },
       [.callConstructor cid, .storeType s, .emitSignal "init"], none) ∧
    constructor_for_token .L_TK_WEBVIEW = some .widget_webview ∧
    constructor_for_token .L_TK_NOTEBOOK = some .widget_notebook ∧
    constructor_for_token .L_TK_TEXTAREA = some .widget_textarea ∧
    constructor_for_token .L_TK_HBOX = some .widget_hbox ∧
    constructor_for_token .L_TK_VBOX = some .widget_vbox ∧
    (∀ tok, tok ∉ widget_type_tokens → constructor_for_token tok = none) := by
  refine ⟨?_, rfl, rfl, rfl, rfl, rfl, ?_⟩
  · simp [luaH_widget_set_type, h, hc]
  · intro tok htok
    exact (constructor_for_token_eq_none tok).mpr htok

/-- Witness for C3 at a fresh widget and the type name "webview". -/
theorem set_type_dispatch_table_witness :
    luaH_widget_set_type installPtrs freshWidget "webview"
      = ({ installPtrs .widget_webview freshWidget with type := some "webview" },
         [.callConstructor .widget_webview, .storeType "webview",
          .emitSignal "init"], none) :=
  (set_type_dispatch_table installPtrs freshWidget "webview" .widget_webview
    rfl rfl).1

/-- Claim C4: after a successful type assignment the widget's type field
holds the given string, its index/newindex/destructor pointers are exactly
those installed by the chosen constructor, and reading the type property
returns the stored string — while it returns nothing on a widget whose
type was never set. -/
theorem set_type_installs_fields (ctors : ConstructorId → widget_t → widget_t)
    (w : widget_t) (s : String) (cid : ConstructorId) (h : w.type = none)
    (hc : constructor_for_token (l_tokenize s) = some cid) :
    (luaH_widget_set_type ctors w s).1.type = some s ∧
    (luaH_widget_set_type ctors w s).1.index = (ctors cid w).index ∧
    (luaH_widget_set_type ctors w s).1.newindex = (ctors cid w).newindex ∧
    (luaH_widget_set_type ctors w s).1.destructor = (ctors cid w).destructor ∧
    luaH_widget_get_type (luaH_widget_set_type ctors w s).1 = some s ∧
    luaH_widget_get_type w = none := by
  simp [luaH_widget_set_type, luaH_widget_get_type, h, hc]

/-- Witness for C4 at a fresh widget, the type name "vbox", and the
constructor interpretation that installs pointers 7, 8, 9. -/
theorem set_type_installs_fields_witness :
    (luaH_widget_set_type installPtrs freshWidget "vbox").1.type
      = some "vbox" ∧
    (luaH_widget_set_type installPtrs freshWidget "vbox").1.index
      = (installPtrs .widget_vbox freshWidget).index ∧
    (luaH_widget_set_type installPtrs freshWidget "vbox").1.newindex
      = (installPtrs .widget_vbox freshWidget).newindex ∧
    (luaH_widget_set_type installPtrs freshWidget "vbox").1.destructor
      = (installPtrs .widget_vbox freshWidget).destructor ∧
    luaH_widget_get_type (luaH_widget_set_type installPtrs freshWidget "vbox").1
      = some "vbox" ∧
    luaH_widget_get_type freshWidget = none :=
  set_type_installs_fields installPtrs freshWidget "vbox" .widget_vbox rfl rfl

/-- Claim C5: every property read or write tokenizes the property name
with `l_tokenize` and, when the backend handler pointer is non-null,
passes that token to the backend handler (whose result is the result of
the metamethod when the class step did not handle the read); when the
pointer is null the backend step contributes no result (0 values). -/
theorem dispatch_passes_token (interp : Nat → luakit_token_t → Nat)
    (p : Nat) (w : widget_t) (prop : String) :
    (w.index = some p → luaH_widget_index interp false w prop =
      (interp p (l_tokenize prop),
       [.classIndexCalled, .backendIndexCalled (l_tokenize prop)])) ∧
    (w.index = none → luaH_widget_index interp false w prop =
      (0, [.classIndexCalled])) ∧
    (∀ b, w.newindex = some p → luaH_widget_newindex interp b w prop =
      (interp p (l_tokenize prop),
       [.classNewindexCalled, .backendNewindexCalled (l_tokenize prop)])) ∧
    (∀ b, w.newindex = none → luaH_widget_newindex interp b w prop =
      (0, [.classNewindexCalled])) := by
  refine ⟨fun h => ?_, fun h => ?_, fun b h => ?_, fun b h => ?_⟩ <;>
    simp [luaH_widget_index, luaH_widget_newindex, h]

/-- Witness for C5: reading property "parent" on a widget whose backend
index pointer is 7, under the interpretation that every backend handler
pushes one value. -/
theorem dispatch_passes_token_witness :
    luaH_widget_index (fun _ _ => 1) false
        { freshWidget with index := some 7 } "parent" =
      (1, [.classIndexCalled, .backendIndexCalled .L_TK_PARENT]) :=
  (dispatch_passes_token (fun _ _ => 1) 7
    { freshWidget with index := some 7 } "parent").1 rfl

/-- Claim C6: garbage collection invokes the widget's destructor exactly
when its pointer is non-null, before the generic `luaH_object_gc`; with a
null destructor pointer only the generic collection runs. -/
theorem gc_destructor_order (w : widget_t) :
    (w.destructor.isSome →
      luaH_widget_gc w = [.destructorCalled, .objectGcCalled]) ∧
    (w.destructor = none → luaH_widget_gc w = [.objectGcCalled]) := by
  refine ⟨fun h => ?_, fun h => ?_⟩ <;> simp [luaH_widget_gc, h]

/-- Witness for C6 at a widget whose destructor pointer is 9. -/
theorem gc_destructor_order_witness :
    luaH_widget_gc { freshWidget with destructor := some 9 } =
      [.destructorCalled, .objectGcCalled] :=
  (gc_destructor_order { freshWidget with destructor := some 9 }).1 rfl

/-- Claim C7: every widget returned by `luaH_widget_new` starts with null
parent and window fields, and the reference to the Lua class instance is
recorded in its `ref` field. -/
theorem new_widget_fields (alloc : widget_t) (refVal : Nat) :
    (luaH_widget_new alloc refVal).parent = none ∧
    (luaH_widget_new alloc refVal).window = none ∧
    (luaH_widget_new alloc refVal).ref = some refVal := by
  refine ⟨rfl, rfl, rfl⟩

/-- Claim C8: read and write dispatch are asymmetric: a read consults the
backend index handler only when the class index yields no result (when it
does, the backend handler is not invoked even if non-null), while a write
invokes the class newindex and, when non-null, the backend newindex
handler unconditionally — the outcome is independent of whether the class
newindex handled the property. -/
theorem dispatch_asymmetry (interp : Nat → luakit_token_t → Nat)
    (p : Nat) (w : widget_t) (prop : String) (b b' : Bool) :
    luaH_widget_index interp true w prop = (1, [.classIndexCalled]) ∧
    luaH_widget_newindex interp b w prop =
      luaH_widget_newindex interp b' w prop ∧
    (w.newindex = some p →
      DispatchEvent.classNewindexCalled ∈
        (luaH_widget_newindex interp b w prop).2 ∧
      DispatchEvent.backendNewindexCalled (l_tokenize prop) ∈
        (luaH_widget_newindex interp b w prop).2) := by
  refine ⟨rfl, rfl, fun h => ?_⟩
  simp [luaH_widget_newindex, h]

/-- Witness for C8: writing property "type" on a widget whose backend
newindex pointer is 8, with the class-handled flag both true and false. -/
theorem dispatch_asymmetry_witness :
    luaH_widget_index (fun _ _ => 1) true
        { freshWidget with newindex := some 8 } "type" =
      (1, [.classIndexCalled]) ∧
    DispatchEvent.classNewindexCalled ∈
      (luaH_widget_newindex (fun _ _ => 1) true
        { freshWidget with newindex := some 8 } "type").2 ∧
    DispatchEvent.backendNewindexCalled (l_tokenize "type") ∈
      (luaH_widget_newindex (fun _ _ => 1) true
        { freshWidget with newindex := some 8 } "type").2 :=
  ⟨(dispatch_asymmetry (fun _ _ => 1) 8
      { freshWidget with newindex := some 8 } "type" true false).1,
   (dispatch_asymmetry (fun _ _ => 1) 8
      { freshWidget with newindex := some 8 } "type" true false).2.2 rfl⟩

/-- Claim C9: reading the parent property yields the parent widget's
handle whenever the parent field is non-null (whatever the window field
holds), the owning window's handle when only the window field is
non-null, and no value when both are null. -/
theorem get_parent_precedence (wheap : Nat → widget_t)
    (winheap : Nat → window_t) (w : widget_t) (p win : Nat) :
    luaH_widget_get_parent wheap winheap { w with parent := some p } =
      some ((wheap p).ref) ∧
    luaH_widget_get_parent wheap winheap
        { w with parent := none, window := some win } =
      some ((winheap win).ref) ∧
    luaH_widget_get_parent wheap winheap
        { w with parent := none, window := none } = none := by
  refine ⟨rfl, rfl, rfl⟩

/-- Claim C10: every successful type assignment emits the "init" signal
exactly once, after the chosen constructor has run and the type string has
been stored (the trace is exactly constructor call, type store, signal
emission); no failed assignment emits it. -/
theorem init_signal_once (ctors : ConstructorId → widget_t → widget_t)
    (w : widget_t) (s : String) :
    ((luaH_widget_set_type ctors w s).2.2 = none →
      ((luaH_widget_set_type ctors w s).2.1.count
          (SetTypeEvent.emitSignal "init") = 1 ∧
       ∃ cid, (luaH_widget_set_type ctors w s).2.1 =
         [.callConstructor cid, .storeType s, .emitSignal "init"])) ∧
    ((luaH_widget_set_type ctors w s).2.2.isSome →
      SetTypeEvent.emitSignal "init" ∉ (luaH_widget_set_type ctors w s).2.1) := by
  rcases hw : w.type with _ | t
  · rcases hc : constructor_for_token (l_tokenize s) with _ | cid
    · constructor
      · intro h
        simp [luaH_widget_set_type, hw, hc] at h
      · intro _
        simp [luaH_widget_set_type, hw, hc]
    · constructor
      · intro _
        refine ⟨?_, cid, ?_⟩ <;> simp [luaH_widget_set_type, hw, hc]
      · intro h
        simp [luaH_widget_set_type, hw, hc] at h
  · constructor
    · intro h
      simp [luaH_widget_set_type, hw] at h
    · intro _
      simp [luaH_widget_set_type, hw]

/-- Witness for C10 at a fresh widget and the type name "notebook". -/
theorem init_signal_once_witness :
    (luaH_widget_set_type installPtrs freshWidget "notebook").2.1.count
        (SetTypeEvent.emitSignal "init") = 1 ∧
    ∃ cid, (luaH_widget_set_type installPtrs freshWidget "notebook").2.1 =
      [.callConstructor cid, .storeType "notebook", .emitSignal "init"] :=
  (init_signal_once installPtrs freshWidget "notebook").1 rfl

end Luakit
